import Mathlib

/-!
Verification development for a thrift connection pool (Go package `thriftpool`,
file `pool.go`). The Go program is shallowly embedded: the pool state is a
record, the buffered channel `clients` is a bounded FIFO list (front = next
element a receive yields, sends append at the back), `int32` counters are
integers updated through 32-bit wraparound arithmetic, wall-clock time is an
explicit `now : Int` parameter in Unix seconds, and the external socket dial
is an explicit `DialOutcome` parameter.  Errors built with `errors.New` /
`fmt.Sprintf` are represented by an inductive type carrying the same values
the format strings embed.
-/

namespace Thriftpool

/-- Two-complement 32-bit wraparound, the semantics of Go `int32` arithmetic
(`atomic.AddInt32`, `int32` multiplication). -/
def wrap32 (x : Int) : Int :=
  (x + 2147483648) % 4294967296 - 2147483648

/-- Embedding of Go `ThriftConn`.  `client *thrift.TSocket` is abstracted to
the observable effects of its `Close` method: `clientCloseCount` counts how
often the underlying handle close was invoked, and `clientCloseErr` is the
(environment-determined) result that invocation returns.  Only
`usedTime.Unix()` (whole seconds) is ever observed by the program, so
`usedTime` is kept in Unix seconds. -/
structure ThriftConn where
  Endpoint : String
  closed : Bool
  clientCloseCount : Nat
  clientCloseErr : Option String
  usedTime : Int
deriving DecidableEq

/-- Go `ThriftConn.Close`: if already closed return nil, else mark closed and
close the underlying handle, returning the handle's result. -/
def ThriftConn.Close (t : ThriftConn) : ThriftConn × Option String :=
  if t.closed then (t, none)
  else ({ t with closed := true, clientCloseCount := t.clientCloseCount + 1 },
        t.clientCloseErr)

/-- Go `ThriftConn.IsClose`. -/
def ThriftConn.IsClose (t : ThriftConn) : Bool := t.closed

/-- Go `ThriftConn.GetUsedTime` (`usedTime.Unix()`). -/
def ThriftConn.GetUsedTime (t : ThriftConn) : Int := t.usedTime

/-- Go `ThriftConn.UpdateUsedTime`: set `usedTime` to now, return its Unix
seconds. -/
def ThriftConn.UpdateUsedTime (t : ThriftConn) (now : Int) : ThriftConn × Int :=
  ({ t with usedTime := now }, now)

/-- Errors produced by the pool (`errors.New(fmt.Sprintf ...)`), carrying the
values the corresponding format string interpolates. -/
inductive PoolError where
  /-- `"thriftpool empty, used:%d/%d, init:%d, max:%s"` in `get`. -/
  | poolExhausted (curUsed newUsed initSize maxSize : Int)
  /-- `"use:%d, init:%d, idle:%d"` in `put`. -/
  | queueFull (used initSize idle : Int)
  /-- error returned by `thrift.NewTSocketTimeout` / `thrift.NewTSocket`. -/
  | dialFailed (msg : String)
  /-- error returned by `client.Open()`. -/
  | openFailed (msg : String)
deriving DecidableEq

/-- Result of the external dial + open sequence in `get` (the Go calls to
`thrift.NewTSocketTimeout`/`thrift.NewTSocket` and `client.Open()`), supplied
by the environment. -/
inductive DialOutcome where
  | dialErr (msg : String)
  | openErr (msg : String)
  | ok
deriving DecidableEq

/-- Embedding of Go `ThriftPool`.  `clients chan *ThriftConn` becomes the pair
of the bounded FIFO buffer `clients` (capacity `cap`, fixed at construction)
and the flag `chClosed` recording that `close(t.clients)` has run. -/
structure ThriftPool where
  Endpoint : String
  DialTimeout : Int
  IdleTimeout : Int
  MaxSize : Int
  InitSize : Int
  used : Int
  idle : Int
  assessTime : Int
  closed : Int
  chClosed : Bool
  cap : Int
  clients : List ThriftConn
deriving DecidableEq

/-- Go `NewThriftPool`: defaulting of the four numeric parameters, zeroed
counters, and `make(chan *ThriftConn, MaxSize)`.  The Go product
`initSize * 2` is `int32` multiplication, hence `wrap32`. -/
def NewThriftPool (endpoint : String)
    (dialTimeout idleTimeout maxSize initSize : Int) : ThriftPool :=
  let dt : Int := if dialTimeout < 1 then 5 else dialTimeout
  let it : Int := if idleTimeout < 1 then 10 else idleTimeout
  let ms : Int :=
    if maxSize < 1 then 100
    else if maxSize ≤ wrap32 (initSize * 2) then wrap32 (initSize * 2)
    else maxSize
  let sz : Int := if initSize < 1 then 1 else initSize
  { Endpoint := endpoint, DialTimeout := dt, IdleTimeout := it,
    MaxSize := ms, InitSize := sz, used := 0, idle := 0, assessTime := 0,
    closed := 0, chClosed := false, cap := ms, clients := [] }

/-- Result of Go `get`: the updated pool, the returned connection (if any),
the returned error (if any), and whether the dial step was reached
(`dialed`), which the source reaches only in the `default` branch after the
`doNotNew` and `curUsed > MaxSize` checks. -/
structure GetResult where
  pool : ThriftPool
  conn : Option ThriftConn
  err : Option PoolError
  dialed : Bool
deriving DecidableEq

/-- Go `ThriftPool.get`.  The `select` receive succeeds immediately when the
buffer is nonempty (yielding the oldest element), or - Go semantics of a
receive on a closed, drained channel - when the channel is closed, yielding
`nil`; otherwise the `default` branch runs. -/
def ThriftPool.get (t : ThriftPool) (doNotNew : Bool) (now : Int)
    (dial : DialOutcome) : GetResult :=
  let curUsed : Int := wrap32 (t.used + 1)
  let t2 : ThriftPool := { t with assessTime := now, used := curUsed }
  match t.clients with
  | conn :: rest =>
      ⟨{ t2 with clients := rest, idle := wrap32 (t2.idle - 1) }, some conn,
        none, false⟩
  | [] =>
      if t2.chClosed then
        ⟨{ t2 with idle := wrap32 (t2.idle - 1) }, none, none, false⟩
      else if doNotNew then
        ⟨t2, none, none, false⟩
      else if curUsed > t2.MaxSize then
        ⟨{ t2 with used := wrap32 (curUsed - 1) }, none,
          some (PoolError.poolExhausted curUsed (wrap32 (curUsed - 1))
            t2.InitSize t2.MaxSize), false⟩
      else
        match dial with
        | DialOutcome.dialErr m => ⟨t2, none, some (PoolError.dialFailed m), true⟩
        | DialOutcome.openErr m => ⟨t2, none, some (PoolError.openFailed m), true⟩
        | DialOutcome.ok =>
            ⟨t2, some ⟨t2.Endpoint, false, 0, none, now⟩, none, true⟩

/-- Go `ThriftPool.Get`. -/
def ThriftPool.Get (t : ThriftPool) (now : Int) (dial : DialOutcome) : GetResult :=
  t.get false now dial

/-- Result of Go `put`: the updated pool, the connection as `put` leaves it
(the Go code mutates `conn` in place), whether it was inserted into the
queue, the returned error, and whether a send on the closed channel panicked
(the panic is recovered by the deferred handler, so the call still returns -
with the zero-value `nil` error). -/
structure PutResult where
  pool : ThriftPool
  conn : ThriftConn
  enqueued : Bool
  err : Option PoolError
  panicked : Bool
deriving DecidableEq

/-- Go `ThriftPool.put`.  Mirrors the source order: store `assessTime`,
`subUsed`, closed-pool check, closed-conn check, `addIdle`, read
`GetUsedTime`, `UpdateUsedTime` (only when `doNotNew` is false; both branches
make `nowTime` the current Unix second), the nested eviction conditionals,
then the non-blocking send (`selectResult`): a send on a closed channel
panics and the deferred `recover` closes the connection, decrements `idle`
and lets the call return the zero-value `nil` error. -/
def ThriftPool.put (t : ThriftPool) (conn : ThriftConn) (doNotNew : Bool)
    (now : Int) : PutResult :=
  let used : Int := wrap32 (t.used - 1)
  let t2 : ThriftPool := { t with assessTime := now, used := used }
  if t2.closed = 1 then
    if conn.IsClose = false then
      ⟨t2, (ThriftConn.Close conn).1, false, none, false⟩
    else
      ⟨t2, conn, false, none, false⟩
  else if conn.IsClose then
    ⟨t2, conn, false, none, false⟩
  else
    let idle : Int := wrap32 (t2.idle + 1)
    let t3 : ThriftPool := { t2 with idle := idle }
    let usedTime : Int := conn.GetUsedTime
    let conn1 : ThriftConn :=
      if doNotNew = false then (conn.UpdateUsedTime now).1 else conn
    let nowTime : Int := now
    let selectResult : PutResult :=
      if t3.chClosed then
        ⟨{ t3 with idle := wrap32 (t3.idle - 1) }, (ThriftConn.Close conn1).1,
          false, none, true⟩
      else if (t3.clients.length : Int) < t3.cap then
        ⟨{ t3 with clients := t3.clients ++ [conn1] }, conn1, true, none, false⟩
      else
        ⟨{ t3 with idle := wrap32 (t3.idle - 1) }, (ThriftConn.Close conn1).1,
          false,
          some (PoolError.queueFull used t3.InitSize (wrap32 (t3.idle - 1))),
          false⟩
    if idle > t3.InitSize then
      if nowTime > usedTime then
        if nowTime - usedTime > t3.IdleTimeout then
          ⟨{ t3 with idle := wrap32 (t3.idle - 1) }, (ThriftConn.Close conn1).1,
            false, none, false⟩
        else if idle > t3.MaxSize then
          ⟨{ t3 with idle := wrap32 (t3.idle - 1) }, (ThriftConn.Close conn1).1,
            false, none, false⟩
        else selectResult
      else selectResult
    else selectResult

/-- Go `ThriftPool.Put`. -/
def ThriftPool.Put (t : ThriftPool) (conn : ThriftConn) (now : Int) : PutResult :=
  t.put conn false now

/-- Go `ThriftPool.GetIdle`. -/
def ThriftPool.GetIdle (t : ThriftPool) : Int := t.idle

/-- Go `ThriftPool.GetUsed`. -/
def ThriftPool.GetUsed (t : ThriftPool) : Int := t.used

/-- Go `ThriftPool.GetInitSize`. -/
def ThriftPool.GetInitSize (t : ThriftPool) : Int := t.InitSize

/-- Go `ThriftPool.GetMaxSize`. -/
def ThriftPool.GetMaxSize (t : ThriftPool) : Int := t.MaxSize

/-- Go `ThriftPool.Close`: compare-and-swap `closed` from 0 to 1 (return
immediately if it fails), close the channel, then drain it, closing every
remaining connection.  Returns the updated pool together with the list of
drained connections in their post-`Close` state (a `nil` element would be
skipped; sends only ever enqueue non-nil connections, so the buffer holds
none). -/
def ThriftPool.Close (t : ThriftPool) : ThriftPool × List ThriftConn :=
  if t.closed = 0 then
    ({ t with closed := 1, chClosed := true, clients := [] },
     t.clients.map fun c => (ThriftConn.Close c).1)
  else (t, [])

/-! ### Helper lemmas -/

/-- `wrap32` is the identity on values inside the `int32` range. -/
theorem wrap32_id (x : Int) (h1 : -2147483648 ≤ x) (h2 : x ≤ 2147483647) :
    wrap32 x = x := by
  unfold wrap32; omega

/-- `ThriftConn.Close` always leaves the connection marked closed. -/
theorem conn_close_sets_closed (a : ThriftConn) :
    ((ThriftConn.Close a).1).closed = true := by
  unfold ThriftConn.Close
  split
  · next h => exact h
  · simp

/-! ### Claim theorems -/

/-- C8: `ThriftConn.Close` is idempotent: on an already-closed connection it
returns success (`nil`) and changes nothing - in particular the underlying
handle's close count is not bumped a second time - and the closed flag stays
true. -/
theorem conn_close_idempotent (c : ThriftConn) (h : c.closed = true) :
    ThriftConn.Close c = (c, none) ∧ ((ThriftConn.Close c).1).closed = true := by
  unfold ThriftConn.Close
  simp [h]

/-- Witness for C8 at a concrete already-closed connection. -/
theorem conn_close_idempotent_witness :
    ThriftConn.Close ⟨"e", true, 1, none, 0⟩ = (⟨"e", true, 1, none, 0⟩, none) ∧
    ((ThriftConn.Close (⟨"e", true, 1, none, 0⟩ : ThriftConn)).1).closed = true :=
  conn_close_idempotent ⟨"e", true, 1, none, 0⟩ rfl

/-- C7: `NewThriftPool` always yields a pool applying exactly the source's
defaults (`2×initSize` being the program's `int32` product, i.e.
`wrap32 (initSize * 2)`), zeroed counters, an open empty queue, and queue
capacity equal to the computed `MaxSize`. -/
theorem newThriftPool_defaults (e : String) (dt it ms sz : Int) :
    (NewThriftPool e dt it ms sz).DialTimeout = (if dt < 1 then 5 else dt) ∧
    (NewThriftPool e dt it ms sz).IdleTimeout = (if it < 1 then 10 else it) ∧
    (NewThriftPool e dt it ms sz).MaxSize =
      (if ms < 1 then 100
       else if ms ≤ wrap32 (sz * 2) then wrap32 (sz * 2) else ms) ∧
    (NewThriftPool e dt it ms sz).InitSize = (if sz < 1 then 1 else sz) ∧
    (NewThriftPool e dt it ms sz).used = 0 ∧
    (NewThriftPool e dt it ms sz).idle = 0 ∧
    (NewThriftPool e dt it ms sz).closed = 0 ∧
    (NewThriftPool e dt it ms sz).cap = (NewThriftPool e dt it ms sz).MaxSize ∧
    (NewThriftPool e dt it ms sz).clients = [] ∧
    (NewThriftPool e dt it ms sz).chClosed = false ∧
    (NewThriftPool e dt it ms sz).Endpoint = e := by
  unfold NewThriftPool
  simp

/-- C1: evaluation of `get` in non-creating mode at the failing input.  On an
open pool with an empty free-queue and `used = 0`, `get(doNotNew = true)`
returns nil connection and nil error, but leaves `used = 1`: the source's
`default` branch returns before any `subUsed()` call, so the speculative
increment is never undone, contradicting the claimed decrement. -/
theorem get_probe_leaks_used_counter :
    (ThriftPool.get
      { Endpoint := "e", DialTimeout := 5, IdleTimeout := 10, MaxSize := 100,
        InitSize := 1, used := 0, idle := 0, assessTime := 0, closed := 0,
        chClosed := false, cap := 100, clients := [] }
      true 7 DialOutcome.ok).conn = none ∧
    (ThriftPool.get
      { Endpoint := "e", DialTimeout := 5, IdleTimeout := 10, MaxSize := 100,
        InitSize := 1, used := 0, idle := 0, assessTime := 0, closed := 0,
        chClosed := false, cap := 100, clients := [] }
      true 7 DialOutcome.ok).err = none ∧
    (ThriftPool.get
      { Endpoint := "e", DialTimeout := 5, IdleTimeout := 10, MaxSize := 100,
        InitSize := 1, used := 0, idle := 0, assessTime := 0, closed := 0,
        chClosed := false, cap := 100, clients := [] }
      true 7 DialOutcome.ok).pool.used = 1 := by
  decide

/-- C2: when `Get` finds the free-queue empty (channel open) and the
incremented `used` exceeds `MaxSize`, it restores `used` to its pre-call
value and fails with the pool-exhausted error carrying the used counts and
`MaxSize` (with `InitSize`, exactly as the source's format string does). -/
theorem get_exhausted_no_counter_leak (t : ThriftPool) (now : Int)
    (d : DialOutcome)
    (hq : t.clients = []) (hch : t.chClosed = false)
    (hlo : -2147483648 ≤ t.used) (hhi : t.used + 1 ≤ 2147483647)
    (hover : t.used + 1 > t.MaxSize) :
    (t.Get now d).pool.used = t.used ∧
    (t.Get now d).err =
      some (PoolError.poolExhausted (t.used + 1) t.used t.InitSize t.MaxSize) ∧
    (t.Get now d).conn = none := by
  have h1 : wrap32 (t.used + 1) = t.used + 1 := wrap32_id _ (by omega) hhi
  have h2 : wrap32 (t.used + 1 - 1) = t.used := by
    have : t.used + 1 - 1 = t.used := by ring
    rw [this]; exact wrap32_id _ hlo (by omega)
  have h3 : wrap32 t.used = t.used := wrap32_id _ hlo (by omega)
  unfold ThriftPool.Get ThriftPool.get
  simp only [hq, h1]
  simp [hch, hover, h1, h2, h3]

/-- Witness for C2 at a concrete pool (`used = 5`, `MaxSize = 3`, empty open
queue). -/
theorem get_exhausted_no_counter_leak_witness :
    (ThriftPool.Get
      { Endpoint := "e", DialTimeout := 5, IdleTimeout := 10, MaxSize := 3,
        InitSize := 1, used := 5, idle := 0, assessTime := 0, closed := 0,
        chClosed := false, cap := 3, clients := [] }
      7 DialOutcome.ok).pool.used = 5 ∧
    (ThriftPool.Get
      { Endpoint := "e", DialTimeout := 5, IdleTimeout := 10, MaxSize := 3,
        InitSize := 1, used := 5, idle := 0, assessTime := 0, closed := 0,
        chClosed := false, cap := 3, clients := [] }
      7 DialOutcome.ok).err = some (PoolError.poolExhausted 6 5 1 3) ∧
    (ThriftPool.Get
      { Endpoint := "e", DialTimeout := 5, IdleTimeout := 10, MaxSize := 3,
        InitSize := 1, used := 5, idle := 0, assessTime := 0, closed := 0,
        chClosed := false, cap := 3, clients := [] }
      7 DialOutcome.ok).conn = none :=
  get_exhausted_no_counter_leak _ 7 _ rfl rfl (by decide) (by decide) (by decide)

/-- C3: a `Put` on a pool whose closed flag is set leaves the connection
closed (closing it iff it was still open), returns success, never enqueues
into the free-queue, and does not panic (the send on the closed channel is
never attempted on this path). -/
theorem put_after_close_discards (t : ThriftPool) (c : ThriftConn) (now : Int)
    (hclosed : t.closed = 1) :
    ((t.Put c now).conn).closed = true ∧
    (t.Put c now).err = none ∧
    (t.Put c now).pool.clients = t.clients ∧
    (t.Put c now).enqueued = false ∧
    (t.Put c now).panicked = false := by
  unfold ThriftPool.Put ThriftPool.put
  simp only [hclosed, ThriftConn.IsClose]
  cases hc : c.closed <;>
    simp [hc, conn_close_sets_closed]

/-- Witness for C3: a still-open connection put back into a closed pool. -/
theorem put_after_close_discards_witness :
    ((ThriftPool.Put
      { Endpoint := "e", DialTimeout := 5, IdleTimeout := 10, MaxSize := 4,
        InitSize := 1, used := 1, idle := 0, assessTime := 0, closed := 1,
        chClosed := true, cap := 4, clients := [] }
      ⟨"e", false, 0, none, 3⟩ 9).conn).closed = true ∧
    (ThriftPool.Put
      { Endpoint := "e", DialTimeout := 5, IdleTimeout := 10, MaxSize := 4,
        InitSize := 1, used := 1, idle := 0, assessTime := 0, closed := 1,
        chClosed := true, cap := 4, clients := [] }
      ⟨"e", false, 0, none, 3⟩ 9).err = none ∧
    (ThriftPool.Put
      { Endpoint := "e", DialTimeout := 5, IdleTimeout := 10, MaxSize := 4,
        InitSize := 1, used := 1, idle := 0, assessTime := 0, closed := 1,
        chClosed := true, cap := 4, clients := [] }
      ⟨"e", false, 0, none, 3⟩ 9).pool.clients = [] ∧
    (ThriftPool.Put
      { Endpoint := "e", DialTimeout := 5, IdleTimeout := 10, MaxSize := 4,
        InitSize := 1, used := 1, idle := 0, assessTime := 0, closed := 1,
        chClosed := true, cap := 4, clients := [] }
      ⟨"e", false, 0, none, 3⟩ 9).enqueued = false ∧
    (ThriftPool.Put
      { Endpoint := "e", DialTimeout := 5, IdleTimeout := 10, MaxSize := 4,
        InitSize := 1, used := 1, idle := 0, assessTime := 0, closed := 1,
        chClosed := true, cap := 4, clients := [] }
      ⟨"e", false, 0, none, 3⟩ 9).panicked = false :=
  put_after_close_discards _ _ 9 rfl

/-- C9: `ThriftPool.Close` never touches the `idle` counter (the drain loop
calls `conn.Close()` but no `subIdle()`), so `GetIdle` is unchanged across
`Close` on every pool state; on the first close (flag still 0) the queue is
fully drained and every drained connection ends up closed. -/
theorem pool_close_preserves_idle (t : ThriftPool) :
    ((ThriftPool.Close t).1).GetIdle = t.GetIdle ∧
    (t.closed = 0 →
      ((ThriftPool.Close t).1).clients = [] ∧
      ∀ c ∈ (ThriftPool.Close t).2, c.closed = true) := by
  unfold ThriftPool.Close
  constructor
  · split <;> rfl
  · intro h
    simp only [if_pos h]
    refine ⟨by trivial, ?_⟩
    intro c hc
    simp only [List.mem_map] at hc
    obtain ⟨a, _, rfl⟩ := hc
    exact conn_close_sets_closed a

/-- Witness for C9: closing an open pool holding one idle connection keeps
`GetIdle = 1` while draining the queue and closing the drained connection. -/
theorem pool_close_preserves_idle_witness :
    ((ThriftPool.Close
      { Endpoint := "e", DialTimeout := 5, IdleTimeout := 10, MaxSize := 4,
        InitSize := 1, used := 0, idle := 1, assessTime := 0, closed := 0,
        chClosed := false, cap := 4,
        clients := [⟨"e", false, 0, none, 3⟩] }).1).GetIdle =
      ThriftPool.GetIdle
        { Endpoint := "e", DialTimeout := 5, IdleTimeout := 10, MaxSize := 4,
          InitSize := 1, used := 0, idle := 1, assessTime := 0, closed := 0,
          chClosed := false, cap := 4,
          clients := [⟨"e", false, 0, none, 3⟩] } ∧
    ((ThriftPool.Close
      { Endpoint := "e", DialTimeout := 5, IdleTimeout := 10, MaxSize := 4,
        InitSize := 1, used := 0, idle := 1, assessTime := 0, closed := 0,
        chClosed := false, cap := 4,
        clients := [⟨"e", false, 0, none, 3⟩] }).1).clients = [] ∧
    ∀ c ∈ (ThriftPool.Close
      { Endpoint := "e", DialTimeout := 5, IdleTimeout := 10, MaxSize := 4,
        InitSize := 1, used := 0, idle := 1, assessTime := 0, closed := 0,
        chClosed := false, cap := 4,
        clients := [⟨"e", false, 0, none, 3⟩] }).2, c.closed = true :=
  ⟨(pool_close_preserves_idle _).1,
   ((pool_close_preserves_idle _).2 (by decide)).1,
   ((pool_close_preserves_idle _).2 (by decide)).2⟩

/-- C4: a `Put` of a still-open connection into an open pool where the
incremented `idle` exceeds `InitSize` and the connection has sat longer than
`IdleTimeout` (measured in whole Unix seconds against its pre-call
`lastUsedAt`) closes the connection instead of re-queuing it, undoes the
speculative `idle` increment (so `GetIdle` drops back from `idle + 1` to
`idle`), and returns success.  `IdleTimeout` is nonnegative for every pool
the constructor or `SetIdleTimeout` can produce. -/
theorem put_stale_evicts (t : ThriftPool) (c : ThriftConn) (now : Int)
    (hopen : t.closed = 0) (hc : c.closed = false)
    (hlo : -2147483648 ≤ t.idle) (hhi : t.idle + 1 ≤ 2147483647)
    (hinit : t.idle + 1 > t.InitSize)
    (htime : 0 ≤ t.IdleTimeout)
    (hstale : now - c.usedTime > t.IdleTimeout) :
    ((t.Put c now).conn).closed = true ∧
    (t.Put c now).enqueued = false ∧
    (t.Put c now).pool.clients = t.clients ∧
    (t.Put c now).pool.GetIdle = t.GetIdle ∧
    (t.Put c now).err = none := by
  have hi1 : wrap32 (t.idle + 1) = t.idle + 1 := wrap32_id _ (by omega) hhi
  have hi2 : wrap32 (t.idle + 1 - 1) = t.idle := by
    have : t.idle + 1 - 1 = t.idle := by ring
    rw [this]; exact wrap32_id _ hlo (by omega)
  have hi3 : wrap32 t.idle = t.idle := wrap32_id _ hlo (by omega)
  have hgt : now > c.usedTime := by omega
  unfold ThriftPool.Put ThriftPool.put
  simp only [hopen, ThriftConn.IsClose, hc, ThriftConn.GetUsedTime,
    ThriftConn.UpdateUsedTime, hi1]
  simp [ThriftPool.GetIdle, hinit, hgt, hstale, hi1, hi2, hi3,
    conn_close_sets_closed]

/-- Witness for C4: `idle` is speculatively bumped 1 → 2 > `InitSize` = 1,
the connection is 20 seconds old against a 10-second timeout, and the put
closes it, leaves the queue unchanged and returns no error. -/
theorem put_stale_evicts_witness :
    ((ThriftPool.Put
      { Endpoint := "e", DialTimeout := 5, IdleTimeout := 10, MaxSize := 4,
        InitSize := 1, used := 1, idle := 1, assessTime := 0, closed := 0,
        chClosed := false, cap := 4, clients := [⟨"e", false, 0, none, 2⟩] }
      ⟨"e", false, 0, none, 0⟩ 20).conn).closed = true ∧
    (ThriftPool.Put
      { Endpoint := "e", DialTimeout := 5, IdleTimeout := 10, MaxSize := 4,
        InitSize := 1, used := 1, idle := 1, assessTime := 0, closed := 0,
        chClosed := false, cap := 4, clients := [⟨"e", false, 0, none, 2⟩] }
      ⟨"e", false, 0, none, 0⟩ 20).enqueued = false ∧
    (ThriftPool.Put
      { Endpoint := "e", DialTimeout := 5, IdleTimeout := 10, MaxSize := 4,
        InitSize := 1, used := 1, idle := 1, assessTime := 0, closed := 0,
        chClosed := false, cap := 4, clients := [⟨"e", false, 0, none, 2⟩] }
      ⟨"e", false, 0, none, 0⟩ 20).pool.clients = [⟨"e", false, 0, none, 2⟩] ∧
    (ThriftPool.Put
      { Endpoint := "e", DialTimeout := 5, IdleTimeout := 10, MaxSize := 4,
        InitSize := 1, used := 1, idle := 1, assessTime := 0, closed := 0,
        chClosed := false, cap := 4, clients := [⟨"e", false, 0, none, 2⟩] }
      ⟨"e", false, 0, none, 0⟩ 20).pool.GetIdle =
      ThriftPool.GetIdle
        { Endpoint := "e", DialTimeout := 5, IdleTimeout := 10, MaxSize := 4,
          InitSize := 1, used := 1, idle := 1, assessTime := 0, closed := 0,
          chClosed := false, cap := 4,
          clients := [⟨"e", false, 0, none, 2⟩] } ∧
    (ThriftPool.Put
      { Endpoint := "e", DialTimeout := 5, IdleTimeout := 10, MaxSize := 4,
        InitSize := 1, used := 1, idle := 1, assessTime := 0, closed := 0,
        chClosed := false, cap := 4, clients := [⟨"e", false, 0, none, 2⟩] }
      ⟨"e", false, 0, none, 0⟩ 20).err = none :=
  put_stale_evicts _ _ 20 rfl rfl (by decide) (by decide) (by decide)
    (by decide) (by decide)

/-- C5 counterexample: an open pool and open connection satisfying every
precondition of the claim - after the speculative increment `idle = 3`
exceeds `InitSize = 1`, the connection is not stale (elapsed `0 ≤ 10`), and
`idle = 3` exceeds `MaxSize = 2` - yet `Put` does not return success: the
release happens within the same Unix second as the connection's `lastUsedAt`
(`nowTime = usedTime = 100`), so the source's `nowTime > usedTime` guard
skips the over-capacity eviction, falls through to the send, finds the queue
full and returns the queue-full error. -/
theorem put_overcap_claim_counterexample :
    (let t : ThriftPool :=
       { Endpoint := "e", DialTimeout := 5, IdleTimeout := 10, MaxSize := 2,
         InitSize := 1, used := 1, idle := 2, assessTime := 0, closed := 0,
         chClosed := false, cap := 2,
         clients := [⟨"e", false, 0, none, 1⟩, ⟨"e", false, 0, none, 2⟩] };
     let c : ThriftConn := ⟨"e", false, 0, none, 100⟩;
     t.closed = 0 ∧ c.closed = false ∧
     t.idle + 1 > t.InitSize ∧
     100 - c.usedTime ≤ t.IdleTimeout ∧
     t.idle + 1 > t.MaxSize ∧
     (ThriftPool.Put t c 100).err ≠ none) := by
  decide

/-- C5 amended: the over-capacity eviction additionally requires the current
Unix second to be strictly greater than the connection's pre-call
`lastUsedAt` second.  Under that extra guard, a `Put` of a still-open,
non-stale connection into an open pool with `idle + 1 > InitSize` and
`idle + 1 > MaxSize` closes the connection, does not re-queue it, undoes the
speculative `idle` increment, and returns success. -/
theorem put_overcap_evicts (t : ThriftPool) (c : ThriftConn) (now : Int)
    (hopen : t.closed = 0) (hc : c.closed = false)
    (hlo : -2147483648 ≤ t.idle) (hhi : t.idle + 1 ≤ 2147483647)
    (hinit : t.idle + 1 > t.InitSize)
    (hstrict : now > c.usedTime)
    (hfresh : now - c.usedTime ≤ t.IdleTimeout)
    (hover : t.idle + 1 > t.MaxSize) :
    ((t.Put c now).conn).closed = true ∧
    (t.Put c now).enqueued = false ∧
    (t.Put c now).pool.clients = t.clients ∧
    (t.Put c now).pool.GetIdle = t.GetIdle ∧
    (t.Put c now).err = none := by
  have hi1 : wrap32 (t.idle + 1) = t.idle + 1 := wrap32_id _ (by omega) hhi
  have hi3 : wrap32 t.idle = t.idle := wrap32_id _ hlo (by omega)
  have hns : ¬ (now - c.usedTime > t.IdleTimeout) := by omega
  unfold ThriftPool.Put ThriftPool.put
  simp only [hopen, ThriftConn.IsClose, hc, ThriftConn.GetUsedTime,
    ThriftConn.UpdateUsedTime, hi1]
  simp [ThriftPool.GetIdle, hinit, hstrict, hns, hover, hi1, hi3,
    conn_close_sets_closed]

/-- Witness for the amended C5: `idle` is bumped 2 → 3 past both
`InitSize = 1` and `MaxSize = 2`, the connection is 5 seconds old against a
10-second timeout, and the put closes it and returns no error. -/
theorem put_overcap_evicts_witness :
    ((ThriftPool.Put
      { Endpoint := "e", DialTimeout := 5, IdleTimeout := 10, MaxSize := 2,
        InitSize := 1, used := 1, idle := 2, assessTime := 0, closed := 0,
        chClosed := false, cap := 2,
        clients := [⟨"e", false, 0, none, 1⟩, ⟨"e", false, 0, none, 2⟩] }
      ⟨"e", false, 0, none, 0⟩ 5).conn).closed = true ∧
    (ThriftPool.Put
      { Endpoint := "e", DialTimeout := 5, IdleTimeout := 10, MaxSize := 2,
        InitSize := 1, used := 1, idle := 2, assessTime := 0, closed := 0,
        chClosed := false, cap := 2,
        clients := [⟨"e", false, 0, none, 1⟩, ⟨"e", false, 0, none, 2⟩] }
      ⟨"e", false, 0, none, 0⟩ 5).enqueued = false ∧
    (ThriftPool.Put
      { Endpoint := "e", DialTimeout := 5, IdleTimeout := 10, MaxSize := 2,
        InitSize := 1, used := 1, idle := 2, assessTime := 0, closed := 0,
        chClosed := false, cap := 2,
        clients := [⟨"e", false, 0, none, 1⟩, ⟨"e", false, 0, none, 2⟩] }
      ⟨"e", false, 0, none, 0⟩ 5).pool.clients =
      [⟨"e", false, 0, none, 1⟩, ⟨"e", false, 0, none, 2⟩] ∧
    (ThriftPool.Put
      { Endpoint := "e", DialTimeout := 5, IdleTimeout := 10, MaxSize := 2,
        InitSize := 1, used := 1, idle := 2, assessTime := 0, closed := 0,
        chClosed := false, cap := 2,
        clients := [⟨"e", false, 0, none, 1⟩, ⟨"e", false, 0, none, 2⟩] }
      ⟨"e", false, 0, none, 0⟩ 5).pool.GetIdle =
      ThriftPool.GetIdle
        { Endpoint := "e", DialTimeout := 5, IdleTimeout := 10, MaxSize := 2,
          InitSize := 1, used := 1, idle := 2, assessTime := 0, closed := 0,
          chClosed := false, cap := 2,
          clients := [⟨"e", false, 0, none, 1⟩, ⟨"e", false, 0, none, 2⟩] } ∧
    (ThriftPool.Put
      { Endpoint := "e", DialTimeout := 5, IdleTimeout := 10, MaxSize := 2,
        InitSize := 1, used := 1, idle := 2, assessTime := 0, closed := 0,
        chClosed := false, cap := 2,
        clients := [⟨"e", false, 0, none, 1⟩, ⟨"e", false, 0, none, 2⟩] }
      ⟨"e", false, 0, none, 0⟩ 5).err = none :=
  put_overcap_evicts _ _ 5 rfl rfl (by decide) (by decide) (by decide)
    (by decide) (by decide) (by decide)

/-- C10: when the release happens in a Unix second not strictly after the
connection's pre-call `lastUsedAt` second (`nowTime ≤ usedTime`), both the
idle-timeout check and the over-capacity check are skipped even though
`idle + 1 > InitSize`, and the put proceeds directly to the non-blocking
insert: with room in the open queue the connection (with refreshed
`lastUsedAt`) is enqueued un-closed and the call returns success, whatever
`IdleTimeout` and `MaxSize` are. -/
theorem put_time_guard_skips_eviction (t : ThriftPool) (c : ThriftConn)
    (now : Int)
    (hopen : t.closed = 0) (hc : c.closed = false) (hch : t.chClosed = false)
    (hlo : -2147483648 ≤ t.idle) (hhi : t.idle + 1 ≤ 2147483647)
    (hinit : t.idle + 1 > t.InitSize)
    (hguard : now ≤ c.usedTime)
    (hroom : (t.clients.length : Int) < t.cap) :
    (t.Put c now).enqueued = true ∧
    (t.Put c now).pool.clients = t.clients ++ [{ c with usedTime := now }] ∧
    (t.Put c now).err = none ∧
    ((t.Put c now).conn).closed = false ∧
    (t.Put c now).pool.GetIdle = t.idle + 1 := by
  have hi1 : wrap32 (t.idle + 1) = t.idle + 1 := wrap32_id _ (by omega) hhi
  have hngt : ¬ (now > c.usedTime) := by omega
  unfold ThriftPool.Put ThriftPool.put
  simp only [hopen, ThriftConn.IsClose, hc, ThriftConn.GetUsedTime,
    ThriftConn.UpdateUsedTime, hi1]
  simp [ThriftPool.GetIdle, hinit, hngt, hch, hroom, hi1]

/-- Witness for C10: the connection was last used at second 100 and is
released at second 100; `idle` is bumped 1 → 2 past `InitSize = 1`, yet the
connection is enqueued rather than evicted. -/
theorem put_time_guard_skips_eviction_witness :
    (ThriftPool.Put
      { Endpoint := "e", DialTimeout := 5, IdleTimeout := 10, MaxSize := 4,
        InitSize := 1, used := 1, idle := 1, assessTime := 0, closed := 0,
        chClosed := false, cap := 4, clients := [⟨"e", false, 0, none, 99⟩] }
      ⟨"e", false, 0, none, 100⟩ 100).enqueued = true ∧
    (ThriftPool.Put
      { Endpoint := "e", DialTimeout := 5, IdleTimeout := 10, MaxSize := 4,
        InitSize := 1, used := 1, idle := 1, assessTime := 0, closed := 0,
        chClosed := false, cap := 4, clients := [⟨"e", false, 0, none, 99⟩] }
      ⟨"e", false, 0, none, 100⟩ 100).pool.clients =
      [⟨"e", false, 0, none, 99⟩] ++ [⟨"e", false, 0, none, 100⟩] ∧
    (ThriftPool.Put
      { Endpoint := "e", DialTimeout := 5, IdleTimeout := 10, MaxSize := 4,
        InitSize := 1, used := 1, idle := 1, assessTime := 0, closed := 0,
        chClosed := false, cap := 4, clients := [⟨"e", false, 0, none, 99⟩] }
      ⟨"e", false, 0, none, 100⟩ 100).err = none ∧
    ((ThriftPool.Put
      { Endpoint := "e", DialTimeout := 5, IdleTimeout := 10, MaxSize := 4,
        InitSize := 1, used := 1, idle := 1, assessTime := 0, closed := 0,
        chClosed := false, cap := 4, clients := [⟨"e", false, 0, none, 99⟩] }
      ⟨"e", false, 0, none, 100⟩ 100).conn).closed = false ∧
    (ThriftPool.Put
      { Endpoint := "e", DialTimeout := 5, IdleTimeout := 10, MaxSize := 4,
        InitSize := 1, used := 1, idle := 1, assessTime := 0, closed := 0,
        chClosed := false, cap := 4, clients := [⟨"e", false, 0, none, 99⟩] }
      ⟨"e", false, 0, none, 100⟩ 100).pool.GetIdle = 1 + 1 :=
  put_time_guard_skips_eviction _ _ 100 rfl rfl rfl (by decide) (by decide)
    (by decide) (by decide) (by decide)

/-- C6 counterexample: the free-queue is FIFO, so when it already holds an
older connection, the `Get` immediately following a successful, non-evicted
`Put` returns that older queued connection (without dialing), not the one
just released. -/
theorem put_then_get_fifo_counterexample :
    (let t : ThriftPool :=
       { Endpoint := "e", DialTimeout := 5, IdleTimeout := 10, MaxSize := 4,
         InitSize := 2, used := 2, idle := 1, assessTime := 0, closed := 0,
         chClosed := false, cap := 4, clients := [⟨"e", false, 0, none, 5⟩] };
     let c : ThriftConn := ⟨"e", false, 0, none, 50⟩;
     (ThriftPool.Put t c 100).err = none ∧
     (ThriftPool.Put t c 100).enqueued = true ∧
     ((ThriftPool.Put t c 100).conn).closed = false ∧
     (ThriftPool.Get ((ThriftPool.Put t c 100).pool) 100 DialOutcome.ok).dialed
       = false ∧
     (ThriftPool.Get ((ThriftPool.Put t c 100).pool) 100 DialOutcome.ok).conn
       ≠ some ((ThriftPool.Put t c 100).conn)) := by
  decide

set_option maxHeartbeats 1600000 in
/-- C6 amended: restricted to a free-queue that is empty at the release.
When a `Put` on such a pool inserts the (non-evicted, non-closed) connection
into the queue, the immediately following `Get` returns exactly that
connection, and no dial occurs on that `Get`. -/
theorem put_then_get_returns_released (t : ThriftPool) (c : ThriftConn)
    (now now2 : Int) (d : DialOutcome)
    (hq : t.clients = [])
    (henq : (t.Put c now).enqueued = true) :
    (ThriftPool.Get ((t.Put c now).pool) now2 d).conn =
      some ((t.Put c now).conn) ∧
    (ThriftPool.Get ((t.Put c now).pool) now2 d).dialed = false := by
  simp only [ThriftPool.Put, ThriftPool.put] at henq ⊢
  split_ifs at henq ⊢ <;>
    simp_all [ThriftPool.Get, ThriftPool.get]

/-- Witness for the amended C6: release into an empty queue, then reacquire;
the same connection comes back and `Get` does not dial. -/
theorem put_then_get_returns_released_witness :
    (ThriftPool.Get
      ((ThriftPool.Put
        { Endpoint := "e", DialTimeout := 5, IdleTimeout := 10, MaxSize := 4,
          InitSize := 2, used := 1, idle := 0, assessTime := 0, closed := 0,
          chClosed := false, cap := 4, clients := [] }
        ⟨"e", false, 0, none, 50⟩ 100).pool) 100 DialOutcome.ok).conn =
      some ((ThriftPool.Put
        { Endpoint := "e", DialTimeout := 5, IdleTimeout := 10, MaxSize := 4,
          InitSize := 2, used := 1, idle := 0, assessTime := 0, closed := 0,
          chClosed := false, cap := 4, clients := [] }
        ⟨"e", false, 0, none, 50⟩ 100).conn) ∧
    (ThriftPool.Get
      ((ThriftPool.Put
        { Endpoint := "e", DialTimeout := 5, IdleTimeout := 10, MaxSize := 4,
          InitSize := 2, used := 1, idle := 0, assessTime := 0, closed := 0,
          chClosed := false, cap := 4, clients := [] }
        ⟨"e", false, 0, none, 50⟩ 100).pool) 100 DialOutcome.ok).dialed =
      false :=
  put_then_get_returns_released _ _ 100 100 DialOutcome.ok rfl (by decide)

end Thriftpool
